import Mathlib

/-!
Shallow embedding of the three-stage tweet-analysis pipeline:
`src/analyzers/sentiment_analyzer.py`, `src/analyzers/fact_check_analyzer.py`,
`src/analyzers/fake_news_detector.py`, and the orchestrator in `src/main.py`.

Remote HTTP exchanges are modelled by an explicit `NetOutcome` environment
value (the parsed JSON body on success, or the network failure that the
`requests` call raises); the `HUGGINGFACE_API_TOKEN` environment variable is
an `Option String` parameter read at each call.  JSON numbers are rationals.
-/

/-- JSON values as returned by `response.json()` (object keys are strings). -/
inductive JValue where
  | null
  | bool (b : Bool)
  | num (q : ℚ)
  | str (s : String)
  | arr (xs : List JValue)
  | obj (fields : List (String × JValue))

mutual

def JValue.decEq : (a b : JValue) → Decidable (a = b)
  | .null, .null => isTrue rfl
  | .null, .bool _ => isFalse fun h => nomatch h
  | .null, .num _ => isFalse fun h => nomatch h
  | .null, .str _ => isFalse fun h => nomatch h
  | .null, .arr _ => isFalse fun h => nomatch h
  | .null, .obj _ => isFalse fun h => nomatch h
  | .bool _, .null => isFalse fun h => nomatch h
  | .bool a, .bool b =>
    if h : a = b then isTrue (congrArg JValue.bool h)
    else isFalse fun e => h (JValue.bool.inj e)
  | .bool _, .num _ => isFalse fun h => nomatch h
  | .bool _, .str _ => isFalse fun h => nomatch h
  | .bool _, .arr _ => isFalse fun h => nomatch h
  | .bool _, .obj _ => isFalse fun h => nomatch h
  | .num _, .null => isFalse fun h => nomatch h
  | .num _, .bool _ => isFalse fun h => nomatch h
  | .num a, .num b =>
    if h : a = b then isTrue (congrArg JValue.num h)
    else isFalse fun e => h (JValue.num.inj e)
  | .num _, .str _ => isFalse fun h => nomatch h
  | .num _, .arr _ => isFalse fun h => nomatch h
  | .num _, .obj _ => isFalse fun h => nomatch h
  | .str _, .null => isFalse fun h => nomatch h
  | .str _, .bool _ => isFalse fun h => nomatch h
  | .str _, .num _ => isFalse fun h => nomatch h
  | .str a, .str b =>
    if h : a = b then isTrue (congrArg JValue.str h)
    else isFalse fun e => h (JValue.str.inj e)
  | .str _, .arr _ => isFalse fun h => nomatch h
  | .str _, .obj _ => isFalse fun h => nomatch h
  | .arr _, .null => isFalse fun h => nomatch h
  | .arr _, .bool _ => isFalse fun h => nomatch h
  | .arr _, .num _ => isFalse fun h => nomatch h
  | .arr _, .str _ => isFalse fun h => nomatch h
  | .arr xs, .arr ys =>
    match JValue.decEqList xs ys with
    | isTrue h => isTrue (congrArg JValue.arr h)
    | isFalse h => isFalse fun e => h (JValue.arr.inj e)
  | .arr _, .obj _ => isFalse fun h => nomatch h
  | .obj _, .null => isFalse fun h => nomatch h
  | .obj _, .bool _ => isFalse fun h => nomatch h
  | .obj _, .num _ => isFalse fun h => nomatch h
  | .obj _, .str _ => isFalse fun h => nomatch h
  | .obj _, .arr _ => isFalse fun h => nomatch h
  | .obj xs, .obj ys =>
    match JValue.decEqObj xs ys with
    | isTrue h => isTrue (congrArg JValue.obj h)
    | isFalse h => isFalse fun e => h (JValue.obj.inj e)

def JValue.decEqList : (xs ys : List JValue) → Decidable (xs = ys)
  | [], [] => isTrue rfl
  | [], _ :: _ => isFalse fun h => nomatch h
  | _ :: _, [] => isFalse fun h => nomatch h
  | x :: xs, y :: ys =>
    match JValue.decEq x y with
    | isFalse h => isFalse fun e => h (List.head_eq_of_cons_eq e)
    | isTrue h1 =>
      match JValue.decEqList xs ys with
      | isTrue h2 => isTrue (by rw [h1, h2])
      | isFalse h => isFalse fun e => h (List.tail_eq_of_cons_eq e)

def JValue.decEqObj : (xs ys : List (String × JValue)) → Decidable (xs = ys)
  | [], [] => isTrue rfl
  | [], _ :: _ => isFalse fun h => nomatch h
  | _ :: _, [] => isFalse fun h => nomatch h
  | (k, v) :: xs, (l, w) :: ys =>
    if hk : k = l then
      match JValue.decEq v w with
      | isFalse h => isFalse fun e =>
          h (congrArg Prod.snd (List.head_eq_of_cons_eq e))
      | isTrue hv =>
        match JValue.decEqObj xs ys with
        | isTrue ht => isTrue (by rw [hk, hv, ht])
        | isFalse h => isFalse fun e => h (List.tail_eq_of_cons_eq e)
    else isFalse fun e => hk (congrArg Prod.fst (List.head_eq_of_cons_eq e))

end

instance : DecidableEq JValue := JValue.decEq

instance {ε α : Type} [DecidableEq ε] [DecidableEq α] :
    DecidableEq (Except ε α)
  | .ok a, .ok b =>
    if h : a = b then isTrue (congrArg Except.ok h)
    else isFalse fun e => h (Except.ok.inj e)
  | .ok _, .error _ => isFalse fun h => nomatch h
  | .error _, .ok _ => isFalse fun h => nomatch h
  | .error a, .error b =>
    if h : a = b then isTrue (congrArg Except.error h)
    else isFalse fun e => h (Except.error.inj e)

/-- Outcome of one `requests.post` exchange: an HTTP response (status code,
parsed JSON body, raw text used in error messages), or one of the two
`requests` exceptions the analyzers catch.  A 200 reply whose body fails to
parse as JSON would raise out of `response.json()` and be caught by the
stage's `except` clause exactly like a query error, so it needs no separate
constructor: every stage theorem treats query errors uniformly. -/
inductive NetOutcome where
  | response (status : Nat) (body : JValue) (text : String)
  | timeout
  | connectionFailure
deriving DecidableEq

/-- One stage's result dict.  Label and confidence are arbitrary JSON values
because the Python code can place non-string labels (the trigger echoes
`labels[0]` verbatim) and non-numeric confidences (the sentiment stage stores
`score` without a `float(...)` conversion) into the dict. -/
structure StageResult where
  label : JValue
  confidence : JValue
  note : Option String
deriving DecidableEq

/-- Python truthiness of `os.getenv(...)`: `None` or the empty string. -/
def pyFalsy : Option String → Bool
  | none => true
  | some s => s = ""

/-- Python `s.lower()` (ASCII case mapping, which agrees with Python on the
ASCII text all the analyzers' constants use). -/
def pyLower (s : String) : String :=
  String.mk (s.data.map Char.toLower)

/-- Python `s.upper()` (ASCII case mapping). -/
def pyUpper (s : String) : String :=
  String.mk (s.data.map Char.toUpper)

/-- Python `not text or not text.strip()`: empty or whitespace-only. -/
def pyBlank (s : String) : Bool :=
  s.data.all fun c => c = ' ' ∨ c = '\t' ∨ c = '\n' ∨ c = '\r' ∨
    c = '\x0b' ∨ c = '\x0c'

/-- First-match lookup in a JSON object's field list (Python dict access). -/
def pyLookup : List (String × JValue) → String → Option JValue
  | [], _ => none
  | (k, v) :: fs, key => if k = key then some v else pyLookup fs key

/-- Python substring containment (`needle in hay`) on character lists. -/
def subOccurs (needle : List Char) : List Char → Bool
  | [] => needle.isEmpty
  | c :: rest => needle.isPrefixOf (c :: rest) || subOccurs needle rest

/-- Python `needle in hay` for strings. -/
def pyInStr (needle hay : String) : Bool :=
  subOccurs needle.data hay.data

/-- Python `x.get(key, dflt)`: dict lookup with default; calling `.get` on a
non-dict raises `AttributeError`. -/
def pyGetD : JValue → String → JValue → Except String JValue
  | .obj fs, key, dflt => .ok ((pyLookup fs key).getD dflt)
  | _, _, _ => .error "AttributeError: get"

/-- Python numeric view used by `<`/`>` and `float`: numbers are themselves,
`True`/`False` are `1`/`0`. -/
def pyNum : JValue → Option ℚ
  | .num q => some q
  | .bool b => some (if b then 1 else 0)
  | _ => none

/-- Python `a > b` on JSON values: numeric comparison when both sides are
numbers (bools count as ints), lexicographic comparison of strings; any other
combination raises `TypeError` (list/list comparison, which no analyzer can
reach with a winning score, is conservatively mapped to the error case). -/
def pyGT (a b : JValue) : Except String Bool :=
  match pyNum a, pyNum b with
  | some x, some y => .ok (decide (y < x))
  | _, _ =>
    match a, b with
    | .str s, .str t => .ok (decide (t < s))
    | _, _ => .error "TypeError: unorderable types"

/-- Digit run for the numeric-string case of Python `float`: value and number
of digits consumed, `none` when the run is empty. -/
def readDigits : List Char → Option (ℕ × ℕ × List Char)
  | c :: cs =>
    if c.isDigit then
      match readDigits cs with
      | some (v, n, rest) => some (v + (c.toNat - 48) * 10 ^ n, n + 1, rest)
      | none => some ((c.toNat - 48), 1, cs)
    else none
  | [] => none

/-- Mantissa of a decimal literal: `digits`, `digits.digits?`, or `.digits`. -/
def readMantissa (cs : List Char) : Option (ℚ × List Char) :=
  match readDigits cs with
  | some (v, _, rest) =>
    match rest with
    | '.' :: rest2 =>
      match readDigits rest2 with
      | some (f, n, rest3) => some ((v : ℚ) + (f : ℚ) / 10 ^ n, rest3)
      | none => some ((v : ℚ), rest2)
    | _ => some ((v : ℚ), rest)
  | none =>
    match cs with
    | '.' :: rest2 =>
      match readDigits rest2 with
      | some (f, n, rest3) => some ((f : ℚ) / 10 ^ n, rest3)
      | none => none
    | _ => none

/-- Optional sign in front of a numeric literal. -/
def readSign : List Char → (ℚ × List Char)
  | '+' :: cs => (1, cs)
  | '-' :: cs => (-1, cs)
  | cs => (1, cs)

/-- Python `float(s)` on a string: optional surrounding whitespace, optional
sign, decimal mantissa, optional decimal exponent.  The `inf`/`nan` forms and
digit-group underscores accepted by Python are not representable here and are
mapped to the error case; no analyzer theorem evaluates them. -/
def pyFloatOfString (s : String) : Except String ℚ :=
  let cs := (s.data.dropWhile Char.isWhitespace).reverse.dropWhile
    Char.isWhitespace |>.reverse
  let (sgn, cs) := readSign cs
  match readMantissa cs with
  | none => .error "ValueError: could not convert string to float"
  | some (m, rest) =>
    match rest with
    | [] => .ok (sgn * m)
    | 'e' :: rest2 =>
      match readSign rest2 with
      | (esgn, rest3) =>
        match readDigits rest3 with
        | some (e, _, []) => .ok (sgn * m * 10 ^ (esgn * (e : ℚ)).num)
        | _ => .error "ValueError: could not convert string to float"
    | 'E' :: rest2 =>
      match readSign rest2 with
      | (esgn, rest3) =>
        match readDigits rest3 with
        | some (e, _, []) => .ok (sgn * m * 10 ^ (esgn * (e : ℚ)).num)
        | _ => .error "ValueError: could not convert string to float"
    | _ => .error "ValueError: could not convert string to float"

/-- Python `float(x)`: numbers and bools convert, numeric strings parse,
everything else raises `TypeError`. -/
def pyFloat : JValue → Except String ℚ
  | .num q => .ok q
  | .bool b => .ok (if b then 1 else 0)
  | .str s => pyFloatOfString s
  | _ => .error "TypeError: float() argument"

/-- Python `len(x)` on a JSON value: strings, lists and dicts have a length;
`None`, bools and numbers raise `TypeError`. -/
def pyLen : JValue → Except String Nat
  | .str s => .ok s.length
  | .arr xs => .ok xs.length
  | .obj fs => .ok fs.length
  | _ => .error "TypeError: len"

/-- Python `x[0]` on a JSON value: first list element, one-character string,
`KeyError` on a (string-keyed) dict, `TypeError` otherwise. -/
def pyIdx0 : JValue → Except String JValue
  | .arr (x :: _) => .ok x
  | .arr [] => .error "IndexError"
  | .str s =>
    match s.data with
    | c :: _ => .ok (.str (String.mk [c]))
    | [] => .error "IndexError"
  | .obj _ => .error "KeyError: 0"
  | _ => .error "TypeError: not subscriptable"

/-- The 200-with-`error`-field check shared by all three query functions:
`isinstance(result, dict) and "error" in result` followed by
`"loading" in result["error"].lower()`.  Returns the loading flag, or the
error string, or neither; a non-string `error` value models Python's
`AttributeError` on `.lower()`. -/
def bodyErrorField (body : JValue) : Option (Except String String) :=
  match body with
  | .obj fs =>
    match pyLookup fs "error" with
    | some (.str err) => some (.ok err)
    | some _ => some (.error "AttributeError: lower")
    | none => none
  | _ => none

/-- `query_huggingface_api` from `src/analyzers/sentiment_analyzer.py`:
token check, then the HTTP exchange abstracted by `net`. -/
def query_huggingface_api (text : String) (api_token : Option String)
    (net : NetOutcome) : Except String JValue :=
  if pyFalsy api_token then
    .error "HUGGINGFACE_API_TOKEN not found in environment variables"
  else
    match net with
    | .timeout => .error "API request timed out. Please try again."
    | .connectionFailure =>
      .error "Unable to connect to Hugging Face API. Check your internet connection."
    | .response status body tx =>
      if status = 200 then
        match bodyErrorField body with
        | some (.ok err) =>
          if pyInStr "loading" (pyLower err) then
            .error "Model is loading, please try again in a few seconds"
          else
            .error ("API error: " ++ err)
        | some (.error e) => .error e
        | none => .ok body
      else if status = 429 then
        .error "Rate limit exceeded. Please try again later or upgrade your plan."
      else if status = 401 then
        .error "Invalid API token. Please check your HUGGINGFACE_API_TOKEN."
      else
        .error ("Hugging Face API error: " ++ toString status ++ " - " ++ tx)

/-- `query_fact_check_api` from `src/analyzers/fact_check_analyzer.py`
(same shape as the sentiment query, with an extra 503 branch and its own
messages; the candidate-labels parameter only affects the remote payload). -/
def query_fact_check_api (text : String) (api_token : Option String)
    (net : NetOutcome) : Except String JValue :=
  if pyFalsy api_token then
    .error "HUGGINGFACE_API_TOKEN not found in environment variables"
  else
    match net with
    | .timeout => .error "Fact check API request timed out. Model may be overloaded."
    | .connectionFailure =>
      .error "Unable to connect to fact check API. Check your internet connection."
    | .response status body tx =>
      if status = 200 then
        match bodyErrorField body with
        | some (.ok err) =>
          if pyInStr "loading" (pyLower err) then
            .error "Fact check model is loading, please try again in a few seconds"
          else
            .error ("Fact check API error: " ++ err)
        | some (.error e) => .error e
        | none => .ok body
      else if status = 429 then
        .error "Rate limit exceeded for fact check API. Please try again later."
      else if status = 401 then
        .error "Invalid API token for fact check analysis."
      else if status = 503 then
        .error "Fact check model is currently overloaded. Please try again later."
      else
        .error ("Fact check API error: " ++ toString status ++ " - " ++ tx)

/-- `query_fake_news_api` from `src/analyzers/fake_news_detector.py`. -/
def query_fake_news_api (text : String) (api_token : Option String)
    (net : NetOutcome) : Except String JValue :=
  if pyFalsy api_token then
    .error "HUGGINGFACE_API_TOKEN not found in environment variables"
  else
    match net with
    | .timeout => .error "Fake news detection API request timed out. Please try again."
    | .connectionFailure =>
      .error "Unable to connect to fake news detection API. Check your internet connection."
    | .response status body tx =>
      if status = 200 then
        match bodyErrorField body with
        | some (.ok err) =>
          if pyInStr "loading" (pyLower err) then
            .error "Fake news detection model is loading, please try again in a few seconds"
          else
            .error ("Fake news API error: " ++ err)
        | some (.error e) => .error e
        | none => .ok body
      else if status = 429 then
        .error "Rate limit exceeded for fake news detection API. Please try again later."
      else if status = 401 then
        .error "Invalid API token for fake news detection."
      else
        .error ("Fake news API error: " ++ toString status ++ " - " ++ tx)

/-- The key function `lambda x: x.get('score', 0)` of the `max` calls. -/
def scoreKey (x : JValue) : Except String JValue :=
  pyGetD x "score" (.num 0)

/-- Loop of Python `max(xs, key=...)`: keep the current best, replace it when
a later element's key is strictly greater (so the first maximum wins). -/
def pyMaxGo (best bestKey : JValue) : List JValue → Except String JValue
  | [] => .ok best
  | y :: ys => do
    let ky ← scoreKey y
    let gt ← pyGT ky bestKey
    if gt then pyMaxGo y ky ys else pyMaxGo best bestKey ys

/-- Python `max(predictions, key=lambda x: x.get('score', 0))`. -/
def pyMaxByScore : List JValue → Except String JValue
  | [] => .error "ValueError: max of empty sequence"
  | x :: xs => do
    let kx ← scoreKey x
    pyMaxGo x kx xs

/-- The `label_mapping` dict of `analyze_sentiment`. -/
def label_mapping : List (String × String) :=
  [("LABEL_0", "Negative"), ("LABEL_1", "Neutral"), ("LABEL_2", "Positive")]

/-- `label_mapping.get(raw_label, 'Neutral')`: string keys go through the
table, hashable non-strings miss and give the default, unhashable values
(lists, dicts) raise `TypeError`. -/
def sentLabelFor : JValue → Except String String
  | .str s => .ok ((label_mapping.lookup s).getD "Neutral")
  | .arr _ => .error "TypeError: unhashable type"
  | .obj _ => .error "TypeError: unhashable type"
  | _ => .ok "Neutral"

/-- Response parsing of `analyze_sentiment` (lines 69-101): the normalizer
of the sentiment stage. -/
def sentParse (result : JValue) : Except String StageResult :=
  match result with
  | .arr (predictions :: _) =>
    match predictions with
    | .arr (p :: ps) => do
      let top ← pyMaxByScore (p :: ps)
      let rawLabel ← pyGetD top "label" (.str "LABEL_1")
      let confidence ← pyGetD top "score" (.num 0)
      let label ← sentLabelFor rawLabel
      return ⟨.str label, confidence, none⟩
    | _ => .ok ⟨.str "Neutral", .num 0, none⟩
  | _ => .ok ⟨.str "Neutral", .num 0, none⟩

/-- Python view of a value as a `str` (for `.upper()`/`.lower()` method
calls, which raise `AttributeError` on non-strings). -/
def pyStr : JValue → Except String String
  | .str s => .ok s
  | _ => .error "AttributeError: not a str"

/-- Response parsing of `detect_fake_news` (lines 66-101): the normalizer of
the fake-news stage.  `.upper()`/`.lower()` are ASCII case mappings here,
which agrees with Python on the ASCII labels this endpoint family emits. -/
def fakeParse (result : JValue) : Except String StageResult :=
  match result with
  | .arr (predictions :: _) =>
    match predictions with
    | .arr (p :: ps) => do
      let top ← pyMaxByScore (p :: ps)
      let rawLabelJ ← pyGetD top "label" (.str "REAL")
      let confidence ← pyGetD top "score" (.num 0)
      let raw_label ← pyStr rawLabelJ
      let upper := pyUpper raw_label
      let normalized_label :=
        if upper = "FAKE" ∨ upper = "REAL" then upper
        else if pyInStr "fake" (pyLower raw_label) ∨ pyInStr "false" (pyLower raw_label)
        then "FAKE" else "REAL"
      let conf ← pyFloat confidence
      return ⟨.str normalized_label, .num conf, none⟩
    | _ => .ok ⟨.str "REAL", .num 0, none⟩
  | _ => .ok ⟨.str "REAL", .num 0, none⟩

/-- Response parsing of `analyze_fact_check_trigger` (lines 73-98): the
normalizer of the fact-check-trigger stage. -/
def trigParse (result : JValue) : Except String StageResult :=
  match result with
  | .obj fs =>
    match pyLookup fs "labels", pyLookup fs "scores" with
    | some labels, some scores => do
      let nl ← pyLen labels
      let ns ← pyLen scores
      if 0 < nl ∧ 0 < ns then do
        let top_label ← pyIdx0 labels
        let top_confidence ← pyIdx0 scores
        let conf ← pyFloat top_confidence
        return ⟨top_label, .num conf, none⟩
      else
        return ⟨.str "No fact check needed", .num 0, none⟩
    | _, _ => .ok ⟨.str "No fact check needed", .num 0, none⟩
  | _ => .ok ⟨.str "No fact check needed", .num 0, none⟩

/-- Python splitting on a single separator, `text.split(" ")`: keeps empty
chunks and yields `[""]` on the empty string. -/
def pySplit (sep : Char) : List Char → List (List Char)
  | [] => [[]]
  | c :: rest =>
    match pySplit sep rest with
    | [] => [[]]
    | t :: ts => if c = sep then [] :: t :: ts else (c :: t) :: ts

/-- Python `sep.join(chunks)`. -/
def pyJoin (sep : Char) : List (List Char) → List Char
  | [] => []
  | [t] => t
  | t :: t2 :: ts => t ++ sep :: pyJoin sep (t2 :: ts)

/-- Python `t.startswith('@') and len(t) > 1` on a token. -/
def isAtToken : List Char → Bool
  | '@' :: _ :: _ => true
  | _ => false

/-- The token transformation inside `preprocess`: `'@user' if
t.startswith('@') and len(t) > 1 else t`, then `'http' if
t.startswith('http') else t`. -/
def transformToken (t : List Char) : List Char :=
  let t1 := if isAtToken t then "@user".data else t
  if "http".data.isPrefixOf t1 then "http".data else t1

/-- `preprocess` from `src/analyzers/sentiment_analyzer.py` (lines 111-118). -/
def preprocess (text : String) : String :=
  String.mk (pyJoin ' ' ((pySplit ' ' text.data).map transformToken))

/-- The body of `analyze_sentiment`'s `try` block past the blank-input check:
preprocess, query, parse.  An `.error` here is exactly a trip through the
`except` clause. -/
def sentTry (text : String) (api_token : Option String) (net : NetOutcome) :
    Except String StageResult := do
  let processed_text := preprocess text
  let result ← query_huggingface_api processed_text api_token net
  sentParse result

/-- `analyze_sentiment` from `src/analyzers/sentiment_analyzer.py`. -/
def analyze_sentiment (text : String) (api_token : Option String)
    (net : NetOutcome) : StageResult :=
  if pyBlank text then ⟨.str "Neutral", .num 0, none⟩
  else
    match sentTry text api_token net with
    | .ok r => r
    | .error _ => ⟨.str "Neutral", .num 0, none⟩

/-- The `controversial_keywords` list of `analyze_fact_check_trigger`. -/
def controversial_keywords : List String :=
  ["vaccine", "covid", "coronavirus", "pandemic", "government", "conspiracy",
   "fake", "hoax", "secret", "hidden", "truth", "lie", "fraud", "scam",
   "election", "voting", "rigged", "stolen", "climate change", "global warming",
   "cure", "medicine", "drug", "treatment", "scientist", "research", "study",
   "flat earth", "nasa", "space", "moon landing", "5g", "microchip", "tracking"]

/-- The keyword-based fallback of `analyze_fact_check_trigger` (lines
103-126): lower-case the input, return on the first contained keyword. -/
def trigFallback (text : String) : StageResult :=
  let text_lower := pyLower text
  if controversial_keywords.any (fun keyword => pyInStr keyword text_lower) then
    ⟨.str "Needs fact check", .num (mkRat 7 10),
      some "Triggered by keyword-based fallback due to API unavailability"⟩
  else
    ⟨.str "No fact check needed", .num (mkRat 6 10),
      some "Fallback analysis - API unavailable"⟩

/-- The body of `analyze_fact_check_trigger`'s `try` block past the
blank-input check: query then parse. -/
def trigTry (text : String) (api_token : Option String) (net : NetOutcome) :
    Except String StageResult := do
  let result ← query_fact_check_api text api_token net
  trigParse result

/-- `analyze_fact_check_trigger` from `src/analyzers/fact_check_analyzer.py`. -/
def analyze_fact_check_trigger (text : String) (api_token : Option String)
    (net : NetOutcome) : StageResult :=
  if pyBlank text then ⟨.str "No fact check needed", .num 0, none⟩
  else
    match trigTry text api_token net with
    | .ok r => r
    | .error _ => trigFallback text

/-- The body of `detect_fake_news`'s `try` block past the blank-input check. -/
def fakeTry (text : String) (api_token : Option String) (net : NetOutcome) :
    Except String StageResult := do
  let result ← query_fake_news_api text api_token net
  fakeParse result

/-- `detect_fake_news` from `src/analyzers/fake_news_detector.py`. -/
def detect_fake_news (text : String) (api_token : Option String)
    (net : NetOutcome) : StageResult :=
  if pyBlank text then ⟨.str "REAL", .num 0, none⟩
  else
    match fakeTry text api_token net with
    | .ok r => r
    | .error _ => ⟨.str "REAL", .num 0, none⟩

/-- The tweet record assembled by `analyze_tweet` in `src/main.py`:
the extracted text augmented with the three stage fields. -/
structure CombinedAnalysis where
  text : String
  sentiment : StageResult
  fact_check_trigger : StageResult
  fake_news_detection : StageResult
deriving DecidableEq

/-- The staged pipeline of `analyze_tweet` in `src/main.py` (lines 25-44),
after tweet extraction has produced `text`.  The remote world is the token
plus one `NetOutcome` per stage endpoint. -/
def analyze_tweet (text : String) (api_token : Option String)
    (sentNet trigNet fakeNet : NetOutcome) : CombinedAnalysis :=
  let sentiment := analyze_sentiment text api_token sentNet
  let fact_check_result := analyze_fact_check_trigger text api_token trigNet
  let fake_news_detection :=
    if fact_check_result.label = .str "Needs fact check" then
      detect_fake_news text api_token fakeNet
    else
      ⟨.str "REAL", .num 0, some "Skipped - No claims detected"⟩
  ⟨text, sentiment, fact_check_result, fake_news_detection⟩

/-! Small rewriting lemmas for the `Except` monad used by the stage bodies. -/

@[simp]
theorem exceptBindOk {ε α β : Type} (a : α) (f : α → Except ε β) :
    (Except.ok a >>= f) = f a := rfl

@[simp]
theorem exceptBindError {ε α β : Type} (e : ε) (f : α → Except ε β) :
    ((Except.error e : Except ε α) >>= f) = Except.error e := rfl

/-- C1: for every request, if the fact-check-trigger stage's label is not
exactly "Needs fact check", the `fake_news_detection` field of the returned
`CombinedAnalysis` is the synthesized `REAL`/`0.0`/"Skipped - No claims
detected" record, and the fake-news stage is never invoked: the whole result
is independent of the fake-news remote outcome. -/
theorem fakeNewsSkippedWhenNoTrigger (text : String) (api_token : Option String)
    (sentNet trigNet fakeNet fakeNet' : NetOutcome)
    (h : (analyze_fact_check_trigger text api_token trigNet).label ≠
      .str "Needs fact check") :
    (analyze_tweet text api_token sentNet trigNet fakeNet).fake_news_detection =
      ⟨.str "REAL", .num 0, some "Skipped - No claims detected"⟩ ∧
    analyze_tweet text api_token sentNet trigNet fakeNet =
      analyze_tweet text api_token sentNet trigNet fakeNet' := by
  constructor
  · simp only [analyze_tweet]
    rw [if_neg h]
  · simp only [analyze_tweet]
    rw [if_neg h, if_neg h]

theorem fakeNewsSkippedWhenNoTriggerWitness :
    (analyze_fact_check_trigger "hello" none .timeout).label ≠
      .str "Needs fact check" ∧
    ((analyze_tweet "hello" none .timeout .timeout .timeout).fake_news_detection =
      ⟨.str "REAL", .num 0, some "Skipped - No claims detected"⟩ ∧
     analyze_tweet "hello" none .timeout .timeout .timeout =
      analyze_tweet "hello" none .timeout .timeout .connectionFailure) :=
  ⟨by decide, fakeNewsSkippedWhenNoTrigger "hello" none .timeout .timeout
    .timeout .connectionFailure (by decide)⟩

/-- C2: for every empty or whitespace-only input text, each of the three
stages returns its fixed default result, the same value for every token and
every remote outcome — so no remote exchange can influence it (the blank
check precedes the query call in all three sources). -/
theorem blankInputDefaults (text : String) (h : pyBlank text = true)
    (api_token : Option String) (net : NetOutcome) :
    analyze_sentiment text api_token net = ⟨.str "Neutral", .num 0, none⟩ ∧
    analyze_fact_check_trigger text api_token net =
      ⟨.str "No fact check needed", .num 0, none⟩ ∧
    detect_fake_news text api_token net = ⟨.str "REAL", .num 0, none⟩ := by
  unfold analyze_sentiment analyze_fact_check_trigger detect_fake_news
  rw [h]
  exact ⟨rfl, rfl, rfl⟩

theorem blankInputDefaultsWitness :
    pyBlank " " = true ∧
    (analyze_sentiment " " (some "token") .timeout =
      ⟨.str "Neutral", .num 0, none⟩ ∧
     analyze_fact_check_trigger " " (some "token") .timeout =
      ⟨.str "No fact check needed", .num 0, none⟩ ∧
     detect_fake_news " " (some "token") .timeout =
      ⟨.str "REAL", .num 0, none⟩) :=
  ⟨by decide, blankInputDefaults " " (by decide) (some "token") .timeout⟩

/-- C9: when the credential is absent (or empty, which `not api_token` also
treats as missing), every stage invoker fails immediately with the
missing-credential message — the same failure for every remote outcome, so
no network attempt can have influenced it — and each stage's result is then
its fallback, again independent of the remote outcome. -/
theorem missingCredentialFailsFirst (text : String) (api_token : Option String)
    (net net' : NetOutcome) (hb : pyBlank text = false)
    (ht : pyFalsy api_token = true) :
    (∀ t : String, query_huggingface_api t api_token net =
      .error "HUGGINGFACE_API_TOKEN not found in environment variables") ∧
    (∀ t : String, query_fact_check_api t api_token net =
      .error "HUGGINGFACE_API_TOKEN not found in environment variables") ∧
    (∀ t : String, query_fake_news_api t api_token net =
      .error "HUGGINGFACE_API_TOKEN not found in environment variables") ∧
    analyze_sentiment text api_token net = ⟨.str "Neutral", .num 0, none⟩ ∧
    analyze_fact_check_trigger text api_token net = trigFallback text ∧
    detect_fake_news text api_token net = ⟨.str "REAL", .num 0, none⟩ ∧
    analyze_sentiment text api_token net = analyze_sentiment text api_token net' ∧
    analyze_fact_check_trigger text api_token net =
      analyze_fact_check_trigger text api_token net' ∧
    detect_fake_news text api_token net = detect_fake_news text api_token net' := by
  have hq1 : ∀ t (n : NetOutcome), query_huggingface_api t api_token n =
      .error "HUGGINGFACE_API_TOKEN not found in environment variables" := by
    intro t n; unfold query_huggingface_api; rw [ht]; rfl
  have hq2 : ∀ t (n : NetOutcome), query_fact_check_api t api_token n =
      .error "HUGGINGFACE_API_TOKEN not found in environment variables" := by
    intro t n; unfold query_fact_check_api; rw [ht]; rfl
  have hq3 : ∀ t (n : NetOutcome), query_fake_news_api t api_token n =
      .error "HUGGINGFACE_API_TOKEN not found in environment variables" := by
    intro t n; unfold query_fake_news_api; rw [ht]; rfl
  have hs : ∀ n : NetOutcome, analyze_sentiment text api_token n =
      ⟨.str "Neutral", .num 0, none⟩ := by
    intro n
    unfold analyze_sentiment sentTry
    rw [hb]
    simp only [hq1, exceptBindError]
    rfl
  have hf : ∀ n : NetOutcome, analyze_fact_check_trigger text api_token n =
      trigFallback text := by
    intro n
    unfold analyze_fact_check_trigger trigTry
    rw [hb]
    simp only [hq2, exceptBindError]
    rfl
  have hd : ∀ n : NetOutcome, detect_fake_news text api_token n =
      ⟨.str "REAL", .num 0, none⟩ := by
    intro n
    unfold detect_fake_news fakeTry
    rw [hb]
    simp only [hq3, exceptBindError]
    rfl
  exact ⟨fun t => hq1 t net, fun t => hq2 t net, fun t => hq3 t net,
    hs net, hf net, hd net, (hs net).trans (hs net').symm,
    (hf net).trans (hf net').symm, (hd net).trans (hd net').symm⟩

theorem missingCredentialFailsFirstWitness :
    pyBlank "hello" = false ∧ pyFalsy none = true ∧
    (analyze_sentiment "hello" none .timeout = ⟨.str "Neutral", .num 0, none⟩ ∧
     analyze_fact_check_trigger "hello" none .timeout = trigFallback "hello" ∧
     detect_fake_news "hello" none .timeout = ⟨.str "REAL", .num 0, none⟩) :=
  ⟨by decide, by decide,
    (missingCredentialFailsFirst "hello" none .timeout .connectionFailure
      (by decide) (by decide)).2.2.2.1,
    (missingCredentialFailsFirst "hello" none .timeout .connectionFailure
      (by decide) (by decide)).2.2.2.2.1,
    (missingCredentialFailsFirst "hello" none .timeout .connectionFailure
      (by decide) (by decide)).2.2.2.2.2.1⟩


/-- C3 counterexample: the sentiment stage's degraded path (its remote
invocation raised the missing-credential failure) returns a result with no
`note` field, so a degraded stage result does not always carry a note. -/
theorem degradedNoteCounterexample :
    sentTry "hello" none .timeout =
      .error "HUGGINGFACE_API_TOKEN not found in environment variables" ∧
    (analyze_sentiment "hello" none .timeout).note = none := by decide

/-- C3 amended: only the fact-check-trigger stage's degraded results carry a
`note`; the sentiment and fake-news degraded paths return the same note-less
zero-confidence defaults as their success-path shape fallbacks. -/
theorem degradedNotePerStage (text : String) (api_token : Option String)
    (net : NetOutcome) (hb : pyBlank text = false) :
    (∀ e, trigTry text api_token net = .error e →
      (analyze_fact_check_trigger text api_token net).note ≠ none) ∧
    (∀ e, sentTry text api_token net = .error e →
      analyze_sentiment text api_token net = ⟨.str "Neutral", .num 0, none⟩) ∧
    (∀ e, fakeTry text api_token net = .error e →
      detect_fake_news text api_token net = ⟨.str "REAL", .num 0, none⟩) := by
  refine ⟨fun e he => ?_, fun e he => ?_, fun e he => ?_⟩
  · have hred : analyze_fact_check_trigger text api_token net = trigFallback text := by
      unfold analyze_fact_check_trigger
      rw [hb, he]
      rfl
    rw [hred]
    unfold trigFallback
    dsimp only
    split <;> simp
  · unfold analyze_sentiment
    rw [hb, he]
    rfl
  · unfold detect_fake_news
    rw [hb, he]
    rfl

theorem degradedNotePerStageWitness :
    pyBlank "hello" = false ∧
    (analyze_fact_check_trigger "hello" none .timeout).note ≠ none :=
  ⟨by decide,
    (degradedNotePerStage "hello" none .timeout (by decide)).1
      "HUGGINGFACE_API_TOKEN not found in environment variables" (by decide)⟩

/-- C6 counterexample: a malformed trigger reply (well-shaped `labels` and
`scores` lists, but `scores[0]` is itself a list, on which Python's
`float()` raises) makes the trigger normalizer propagate an error, and the
stage then returns the keyword fallback — not the documented
zero-confidence default. -/
theorem normalizerDefaultCounterexample :
    trigParse (.obj [("labels", .arr [.str "Needs fact check"]),
        ("scores", .arr [.arr []])]) =
      .error "TypeError: float() argument" ∧
    analyze_fact_check_trigger "hello" (some "token")
        (.response 200 (.obj [("labels", .arr [.str "Needs fact check"]),
          ("scores", .arr [.arr []])]) "") =
      ⟨.str "No fact check needed", .num (mkRat 6 10),
        some "Fallback analysis - API unavailable"⟩ ∧
    (⟨.str "No fact check needed", .num (mkRat 6 10),
        some "Fallback analysis - API unavailable"⟩ : StageResult) ≠
      ⟨.str "No fact check needed", .num 0, none⟩ := by decide

/-- Collection-level well-shapedness of a sentiment or fake-news reply: a
nonempty list whose first element is a nonempty list. -/
def nestedListShape : JValue → Bool
  | .arr (first :: _) =>
    match first with
    | .arr (_ :: _) => true
    | _ => false
  | _ => false

/-- Collection-level shape mismatch of a trigger reply: not a dict with both
keys, or both present as lists with one of them empty. -/
def trigShapeMismatch : JValue → Bool
  | .obj fs =>
    match pyLookup fs "labels", pyLookup fs "scores" with
    | some (.arr ls), some (.arr ss) => ls.isEmpty || ss.isEmpty
    | some _, some _ => false
    | _, _ => true
  | _ => true

/-- C6 amended: each stage's normalizer yields its documented zero-confidence
default, without error, on every reply whose collection-level shape
mismatches (sentiment/fake-news: the reply is not a nonempty list whose
first element is a nonempty list; trigger: the `labels`/`scores` keys are
missing, the reply is not a dict, or both are lists and one is empty).
Element-level mismatches inside a well-shaped collection can instead raise
internally and divert the stage to its exception fallback. -/
theorem normalizerShapeDefaults (v : JValue) :
    (nestedListShape v = false → sentParse v = .ok ⟨.str "Neutral", .num 0, none⟩) ∧
    (nestedListShape v = false → fakeParse v = .ok ⟨.str "REAL", .num 0, none⟩) ∧
    (trigShapeMismatch v = true →
      trigParse v = .ok ⟨.str "No fact check needed", .num 0, none⟩) := by
  refine ⟨fun h => ?_, fun h => ?_, fun h => ?_⟩
  · rcases v with _ | b | q | s | xs | fs
    case null => rfl
    case bool => rfl
    case num => rfl
    case str => rfl
    case obj => rfl
    case arr =>
      rcases xs with _ | ⟨first, rest⟩
      · rfl
      rcases first with _ | b | q | s | ys | fs2
      case null => rfl
      case bool => rfl
      case num => rfl
      case str => rfl
      case obj => rfl
      case arr =>
        rcases ys with _ | ⟨p, ps⟩
        · rfl
        · exact absurd h (by simp [nestedListShape])
  · rcases v with _ | b | q | s | xs | fs
    case null => rfl
    case bool => rfl
    case num => rfl
    case str => rfl
    case obj => rfl
    case arr =>
      rcases xs with _ | ⟨first, rest⟩
      · rfl
      rcases first with _ | b | q | s | ys | fs2
      case null => rfl
      case bool => rfl
      case num => rfl
      case str => rfl
      case obj => rfl
      case arr =>
        rcases ys with _ | ⟨p, ps⟩
        · rfl
        · exact absurd h (by simp [nestedListShape])
  · rcases v with _ | b | q | s | xs | fs
    case null => rfl
    case bool => rfl
    case num => rfl
    case str => rfl
    case arr => rfl
    case obj =>
      unfold trigShapeMismatch at h
      cases hl : pyLookup fs "labels" with
      | none => simp only [trigParse, hl]
      | some labels =>
        cases hsc : pyLookup fs "scores" with
        | none => simp only [trigParse, hl, hsc]
        | some scores =>
          rcases labels with _ | b | q | s | ls | fs2 <;>
            rcases scores with _ | b2 | q2 | s2 | ss | fs3 <;>
            simp only [hl, hsc] at h <;>
            first
            | exact Bool.noConfusion h
            | skip
          simp only [trigParse, hl, hsc]
          have h2 : ls = [] ∨ ss = [] := by simpa using h
          rcases h2 with h2 | h2 <;> subst h2 <;> simp [pyLen, pyIdx0] <;> rfl

theorem normalizerShapeDefaultsWitness :
    nestedListShape .null = false ∧ trigShapeMismatch .null = true ∧
    (sentParse .null = .ok ⟨.str "Neutral", .num 0, none⟩ ∧
     fakeParse .null = .ok ⟨.str "REAL", .num 0, none⟩ ∧
     trigParse .null = .ok ⟨.str "No fact check needed", .num 0, none⟩) :=
  ⟨by decide, by decide,
    (normalizerShapeDefaults .null).1 (by decide),
    (normalizerShapeDefaults .null).2.1 (by decide),
    (normalizerShapeDefaults .null).2.2 (by decide)⟩

/-- C7: when the fact-check-trigger stage's remote invocation fails, the
fallback lower-cases the input and tests substring containment of each term
of the fixed keyword list: any (case-insensitive) keyword hit yields the
"Needs fact check"/0.7 record with the keyword-fallback note, and no hit
yields the "No fact check needed"/0.6 record with the API-unavailable
note. -/
theorem triggerKeywordFallback (text : String) (api_token : Option String)
    (net : NetOutcome) (e : String) (hb : pyBlank text = false)
    (hq : query_fact_check_api text api_token net = .error e) :
    ((∃ k ∈ controversial_keywords, pyInStr k (pyLower text)) →
      analyze_fact_check_trigger text api_token net =
        ⟨.str "Needs fact check", .num (mkRat 7 10),
          some "Triggered by keyword-based fallback due to API unavailability"⟩) ∧
    ((∀ k ∈ controversial_keywords, ¬ pyInStr k (pyLower text)) →
      analyze_fact_check_trigger text api_token net =
        ⟨.str "No fact check needed", .num (mkRat 6 10),
          some "Fallback analysis - API unavailable"⟩) := by
  have hred : analyze_fact_check_trigger text api_token net = trigFallback text := by
    unfold analyze_fact_check_trigger trigTry
    rw [hb]
    simp only [hq, exceptBindError]
    rfl
  rw [hred]
  unfold trigFallback
  constructor
  · intro hk
    dsimp only
    rw [if_pos (by simpa [List.any_eq_true] using hk)]
  · intro hk
    dsimp only
    rw [if_neg (by simpa [List.any_eq_true] using hk)]

theorem triggerKeywordFallbackWitness :
    pyBlank "VACCINE conspiracy" = false ∧
    query_fact_check_api "VACCINE conspiracy" none .timeout =
      .error "HUGGINGFACE_API_TOKEN not found in environment variables" ∧
    ("vaccine" ∈ controversial_keywords ∧
      pyInStr "vaccine" (pyLower "VACCINE conspiracy") = true) ∧
    analyze_fact_check_trigger "VACCINE conspiracy" none .timeout =
      ⟨.str "Needs fact check", .num (mkRat 7 10),
        some "Triggered by keyword-based fallback due to API unavailability"⟩ :=
  ⟨by decide, by decide, ⟨by decide, by decide⟩,
    (triggerKeywordFallback "VACCINE conspiracy" none .timeout
      "HUGGINGFACE_API_TOKEN not found in environment variables"
      (by decide) (by decide)).1 ⟨"vaccine", by decide, by decide⟩⟩

@[simp]
theorem exceptPureOk {ε α : Type} (a : α) : (pure a : Except ε α) = .ok a := rfl

/-- C4 counterexample: a 200 reply whose `labels` list starts with a string
other than the two candidate labels is echoed verbatim into the trigger
stage's label, so the label is not always one of the two candidate
strings. -/
theorem triggerLabelCounterexample :
    (analyze_fact_check_trigger "hello" (some "token")
        (.response 200 (.obj [("labels", .arr [.str "maybe"]),
          ("scores", .arr [.num 1])]) "")).label = .str "maybe" ∧
    JValue.str "maybe" ≠ .str "Needs fact check" ∧
    JValue.str "maybe" ≠ .str "No fact check needed" := by decide

/-- The zero-shot service contract on a trigger reply body: if a `labels`
list is present and nonempty, its first element is one of the two candidate
strings, and `labels` is not a bare string (whose first character the code
would echo). -/
def labelsHeadBinary : JValue → Prop
  | .obj fs =>
    match pyLookup fs "labels" with
    | some (.arr (l :: _)) =>
      l = .str "Needs fact check" ∨ l = .str "No fact check needed"
    | some (.str _) => False
    | _ => True
  | _ => True

/-- The contract lifted to a remote outcome. -/
def trigReplyBinary : NetOutcome → Prop
  | .response _ body _ => labelsHeadBinary body
  | _ => True

theorem trigFallback_label (text : String) :
    (trigFallback text).label = .str "Needs fact check" ∨
    (trigFallback text).label = .str "No fact check needed" := by
  unfold trigFallback
  dsimp only
  split
  · exact Or.inl rfl
  · exact Or.inr rfl


theorem query_fact_check_api_okBody (text : String) (tok : Option String)
    (net : NetOutcome) (body : JValue)
    (h : query_fact_check_api text tok net = .ok body) :
    ∃ status tx, net = .response status body tx := by
  rcases net with ⟨status, body0, tx⟩ | _ | _
  case timeout => unfold query_fact_check_api at h; split at h <;> simp at h
  case connectionFailure =>
    unfold query_fact_check_api at h; split at h <;> simp at h
  case response =>
    refine ⟨status, tx, ?_⟩
    unfold query_fact_check_api at h
    split at h
    · simp at h
    · dsimp only at h
      split at h
      · split at h
        · split at h <;> simp at h
        · simp at h
        · rw [Except.ok.inj h]
      · split at h
        · simp at h
        · split at h
          · simp at h
          · split at h
            · simp at h
            · simp at h

theorem trigParse_label_binary (body : JValue) (hb : labelsHeadBinary body)
    (r : StageResult) (h : trigParse body = .ok r) :
    r.label = .str "Needs fact check" ∨ r.label = .str "No fact check needed" := by
  have hdef : r = ⟨.str "No fact check needed", .num 0, none⟩ →
      r.label = .str "Needs fact check" ∨ r.label = .str "No fact check needed" := by
    intro hr; rw [hr]; exact Or.inr rfl
  rcases body with _ | b | q | s | xs | fs
  case null => exact hdef (Except.ok.inj h).symm
  case bool => exact hdef (Except.ok.inj h).symm
  case num => exact hdef (Except.ok.inj h).symm
  case str => exact hdef (Except.ok.inj h).symm
  case arr => exact hdef (Except.ok.inj h).symm
  case obj =>
    cases hl : pyLookup fs "labels" with
    | none =>
      simp only [trigParse, hl] at h
      exact hdef (Except.ok.inj h).symm
    | some labels =>
      cases hsc : pyLookup fs "scores" with
      | none =>
        simp only [trigParse, hl, hsc] at h
        exact hdef (Except.ok.inj h).symm
      | some scores =>
        simp only [trigParse, hl, hsc] at h
        simp only [labelsHeadBinary, hl] at hb
        cases hnl : pyLen labels with
        | error e => rw [hnl] at h; simp at h
        | ok nl =>
          rw [hnl] at h
          simp only [exceptBindOk] at h
          cases hns : pyLen scores with
          | error e => rw [hns] at h; simp at h
          | ok ns =>
            rw [hns] at h
            simp only [exceptBindOk] at h
            split at h
            · cases hil : pyIdx0 labels with
              | error e => rw [hil] at h; simp at h
              | ok l =>
                rw [hil] at h
                simp only [exceptBindOk] at h
                cases his : pyIdx0 scores with
                | error e => rw [his] at h; simp at h
                | ok v =>
                  rw [his] at h
                  simp only [exceptBindOk] at h
                  cases hfl : pyFloat v with
                  | error e => rw [hfl] at h; simp at h
                  | ok conf =>
                    rw [hfl] at h
                    simp only [exceptPureOk] at h
                    have hr : r.label = l := by
                      rw [← Except.ok.inj h]
                    rw [hr]
                    rcases labels with _ | b | q | s2 | ls | fs2
                    case null => simp [pyIdx0] at hil
                    case bool => simp [pyIdx0] at hil
                    case num => simp [pyIdx0] at hil
                    case str => simp at hb
                    case obj => simp [pyIdx0] at hil
                    case arr =>
                      rcases ls with _ | ⟨x, ls2⟩
                      · simp [pyIdx0] at hil
                      · simp only [pyIdx0] at hil
                        have hxl : x = l := Except.ok.inj hil
                        rw [← hxl]
                        simpa using hb
            · exact hdef (Except.ok.inj h).symm

/-- C4 amended: for every input text and every remote outcome satisfying the
zero-shot service contract (when the reply carries a nonempty `labels` list
its first element is one of the two candidate strings, and `labels` is not a
bare string), the trigger stage's label is exactly one of the strings
"Needs fact check" and "No fact check needed".  Without that hypothesis the
code echoes `labels[0]` verbatim (see the counterexample). -/
theorem triggerLabelBinary (text : String) (api_token : Option String)
    (net : NetOutcome) (hnet : trigReplyBinary net) :
    (analyze_fact_check_trigger text api_token net).label =
      .str "Needs fact check" ∨
    (analyze_fact_check_trigger text api_token net).label =
      .str "No fact check needed" := by
  unfold analyze_fact_check_trigger
  split
  · exact Or.inr rfl
  · cases htr : trigTry text api_token net with
    | error e => exact trigFallback_label text
    | ok r =>
      show r.label = _ ∨ r.label = _
      unfold trigTry at htr
      cases hq : query_fact_check_api text api_token net with
      | error e => rw [hq] at htr; simp at htr
      | ok body =>
        rw [hq] at htr
        simp only [exceptBindOk] at htr
        obtain ⟨status, tx, hn⟩ := query_fact_check_api_okBody _ _ _ _ hq
        subst hn
        exact trigParse_label_binary body hnet r htr

theorem triggerLabelBinaryWitness :
    trigReplyBinary (.response 200 (.obj [("labels",
        .arr [.str "Needs fact check", .str "No fact check needed"]),
      ("scores", .arr [.num 1, .num 0])]) "") ∧
    ((analyze_fact_check_trigger "hello" (some "token")
        (.response 200 (.obj [("labels",
          .arr [.str "Needs fact check", .str "No fact check needed"]),
        ("scores", .arr [.num 1, .num 0])]) "")).label =
        .str "Needs fact check" ∨
     (analyze_fact_check_trigger "hello" (some "token")
        (.response 200 (.obj [("labels",
          .arr [.str "Needs fact check", .str "No fact check needed"]),
        ("scores", .arr [.num 1, .num 0])]) "")).label =
        .str "No fact check needed") :=
  ⟨by simp [trigReplyBinary, labelsHeadBinary, pyLookup],
    triggerLabelBinary "hello" (some "token") _
      (by simp [trigReplyBinary, labelsHeadBinary, pyLookup])⟩

theorem pySplit_ne_nil (sep : Char) (cs : List Char) : pySplit sep cs ≠ [] := by
  cases cs with
  | nil => simp [pySplit]
  | cons c rest =>
    simp only [pySplit]
    cases hr : pySplit sep rest with
    | nil => simp
    | cons t ts =>
      dsimp only
      split <;> simp

theorem pySplit_no_sep (sep : Char) (cs : List Char) :
    ∀ t ∈ pySplit sep cs, sep ∉ t := by
  induction cs with
  | nil =>
    intro t ht
    simp only [pySplit, List.mem_singleton] at ht
    subst ht
    simp
  | cons c rest ih =>
    intro t ht
    simp only [pySplit] at ht
    cases hr : pySplit sep rest with
    | nil => exact absurd hr (pySplit_ne_nil sep rest)
    | cons u us =>
      rw [hr] at ht
      dsimp only at ht
      by_cases hc : c = sep
      · rw [if_pos hc] at ht
        rcases List.mem_cons.mp ht with h1 | h1
        · subst h1; simp
        · exact ih t (hr ▸ h1)
      · rw [if_neg hc] at ht
        rcases List.mem_cons.mp ht with h1 | h1
        · subst h1
          intro hmem
          rcases List.mem_cons.mp hmem with h2 | h2
          · exact hc h2.symm
          · exact ih u (hr ▸ List.mem_cons_self u us) h2
        · exact ih t (hr ▸ List.mem_cons.mpr (Or.inr h1))

theorem pySplit_single (sep : Char) (t : List Char) (h : sep ∉ t) :
    pySplit sep t = [t] := by
  induction t with
  | nil => rfl
  | cons c t2 ih =>
    have hc : c ≠ sep := fun e => h (e ▸ List.mem_cons_self c t2)
    have ht2 : sep ∉ t2 := fun e => h (List.mem_cons.mpr (Or.inr e))
    simp only [pySplit, ih ht2]
    rw [if_neg hc]

theorem pySplit_append (sep : Char) (t rest : List Char) (h : sep ∉ t) :
    pySplit sep (t ++ sep :: rest) = t :: pySplit sep rest := by
  induction t with
  | nil =>
    rw [List.nil_append, pySplit]
    cases hr : pySplit sep rest with
    | nil => exact absurd hr (pySplit_ne_nil sep rest)
    | cons u us =>
      dsimp only
      rw [if_pos rfl]
  | cons c t2 ih =>
    have hc : c ≠ sep := fun e => h (e ▸ List.mem_cons_self c t2)
    have ht2 : sep ∉ t2 := fun e => h (List.mem_cons.mpr (Or.inr e))
    rw [List.cons_append, pySplit, ih ht2]
    dsimp only
    rw [if_neg hc]

theorem pySplit_pyJoin (sep : Char) (ts : List (List Char)) (hne : ts ≠ [])
    (h : ∀ t ∈ ts, sep ∉ t) :
    pySplit sep (pyJoin sep ts) = ts := by
  induction ts with
  | nil => exact absurd rfl hne
  | cons t ts2 ih =>
    cases ts2 with
    | nil =>
      simp only [pyJoin]
      exact pySplit_single sep t (h t (List.mem_cons_self t []))
    | cons t2 ts3 =>
      simp only [pyJoin]
      rw [pySplit_append sep t _ (h t (List.mem_cons_self t _))]
      rw [ih (by simp) (fun u hu => h u (List.mem_cons.mpr (Or.inr hu)))]

theorem transformToken_cases (t : List Char) :
    transformToken t = "@user".data ∨ transformToken t = "http".data ∨
    transformToken t = t := by
  unfold transformToken
  dsimp only
  split
  · exact Or.inl (by decide)
  · split
    · exact Or.inr (Or.inl rfl)
    · exact Or.inr (Or.inr rfl)

theorem transformToken_no_sep (t : List Char) (h : ' ' ∉ t) :
    ' ' ∉ transformToken t := by
  rcases transformToken_cases t with ht | ht | ht <;> rw [ht]
  · decide
  · decide
  · exact h

theorem transformToken_idem_token (t : List Char) :
    transformToken (transformToken t) = transformToken t := by
  rcases transformToken_cases t with ht | ht | ht <;> rw [ht]
  · decide
  · decide
  · exact ht

theorem mapTransform_idem (ts : List (List Char)) :
    (ts.map transformToken).map transformToken = ts.map transformToken := by
  induction ts with
  | nil => rfl
  | cons t ts2 ih => simp only [List.map_cons, transformToken_idem_token, ih]

theorem pySplit_preprocess (s : String) :
    pySplit ' ' (preprocess s).data =
      (pySplit ' ' s.data).map transformToken := by
  show pySplit ' ' (pyJoin ' ' ((pySplit ' ' s.data).map transformToken)) = _
  refine pySplit_pyJoin ' ' _ ?_ ?_
  · intro hmap
    exact pySplit_ne_nil ' ' s.data (List.map_eq_nil_iff.mp hmap)
  · intro u hu
    obtain ⟨t, ht, rfl⟩ := List.mem_map.mp hu
    exact transformToken_no_sep t (pySplit_no_sep ' ' s.data t ht)

/-- C5: the sentiment preprocessing function is idempotent: for every input
string, applying `preprocess` twice gives the same string as applying it
once (in particular, already-replaced `@user` and `http` placeholder tokens
are preserved by a second run). -/
theorem preprocessIdempotent (s : String) :
    preprocess (preprocess s) = preprocess s := by
  show String.mk (pyJoin ' '
      ((pySplit ' ' (preprocess s).data).map transformToken)) = _
  rw [pySplit_preprocess, mapTransform_idem]
  rfl

theorem transformToken_id (t : List Char)
    (hh : "http".data.isPrefixOf t = false) (ha : isAtToken t = false) :
    transformToken t = t := by
  unfold transformToken
  dsimp only
  rw [ha]
  simp [hh]

theorem listGetMap (f : List Char → List Char) (l : List (List Char)) (i : Nat)
    (h1 : i < l.length) (h2 : i < (l.map f).length) :
    (l.map f).get ⟨i, h2⟩ = f (l.get ⟨i, h1⟩) := by
  induction l generalizing i with
  | nil => exact absurd h1 (by simp)
  | cons x xs ih =>
    cases i with
    | zero => rfl
    | succ j => exact ih j (by simpa using h1) (by simpa using h2)

theorem listGetCongr {α : Type} (l l2 : List α) (h : l = l2) (i : Nat)
    (h1 : i < l.length) (h2 : i < l2.length) :
    l.get ⟨i, h1⟩ = l2.get ⟨i, h2⟩ := by
  subst h
  rfl

/-- C10: preprocessing changes nothing but the designated tokens: splitting
the output on single spaces yields exactly as many tokens as splitting the
input, and every input token that does not start with "http" and is not an
`@`-token of length > 1 appears unchanged at the same position in the
output. -/
theorem preprocessFrame (s : String) :
    (pySplit ' ' (preprocess s).data).length = (pySplit ' ' s.data).length ∧
    (∀ i (h1 : i < (pySplit ' ' s.data).length)
        (h2 : i < (pySplit ' ' (preprocess s).data).length),
      "http".data.isPrefixOf ((pySplit ' ' s.data).get ⟨i, h1⟩) = false →
      isAtToken ((pySplit ' ' s.data).get ⟨i, h1⟩) = false →
      (pySplit ' ' (preprocess s).data).get ⟨i, h2⟩ =
        (pySplit ' ' s.data).get ⟨i, h1⟩) := by
  have hts := pySplit_preprocess s
  constructor
  · rw [hts, List.length_map]
  · intro i h1 h2 hh ha
    have h2m : i < ((pySplit ' ' s.data).map transformToken).length := by
      rw [← hts]
      exact h2
    rw [listGetCongr _ _ hts i h2 h2m, listGetMap transformToken _ i h1 h2m]
    exact transformToken_id _ hh ha

theorem preprocessFrameWitness :
    (pySplit ' ' (preprocess "hi @bob").data).get ⟨0, by decide⟩ =
      (pySplit ' ' ("hi @bob" : String).data).get ⟨0, by decide⟩ :=
  (preprocessFrame "hi @bob").2 0 (by decide) (by decide) (by decide) (by decide)

/-- A well-shaped sentiment candidate `{label, score}` encoded as the JSON
dict the remote service returns. -/
def encCand (c : String × ℚ) : JValue :=
  .obj [("label", .str c.1), ("score", .num c.2)]

/-- Reference first-maximum selection over `(label, score)` candidates,
mirroring Python `max` (a later element replaces the current best only when
its score is strictly greater). -/
def selMaxGo (best : String × ℚ) : List (String × ℚ) → String × ℚ
  | [] => best
  | y :: ys => if best.2 < y.2 then selMaxGo y ys else selMaxGo best ys

/-- The spec's fixed label table: LABEL_0 → Negative, LABEL_1 → Neutral,
LABEL_2 → Positive, anything else → Neutral. -/
def specLabelTable : String → String
  | "LABEL_0" => "Negative"
  | "LABEL_1" => "Neutral"
  | "LABEL_2" => "Positive"
  | _ => "Neutral"

theorem scoreKey_enc (y : String × ℚ) : scoreKey (encCand y) = .ok (.num y.2) := rfl

theorem pyGetD_enc_label (y : String × ℚ) (d : JValue) :
    pyGetD (encCand y) "label" d = .ok (.str y.1) := rfl

theorem pyGetD_enc_score (y : String × ℚ) (d : JValue) :
    pyGetD (encCand y) "score" d = .ok (.num y.2) := rfl

theorem pyMaxGo_enc (b : String × ℚ) (ys : List (String × ℚ)) :
    pyMaxGo (encCand b) (.num b.2) (ys.map encCand) =
      .ok (encCand (selMaxGo b ys)) := by
  induction ys generalizing b with
  | nil => rfl
  | cons y ys2 ih =>
    simp only [List.map_cons, pyMaxGo, scoreKey_enc, exceptBindOk]
    simp only [pyGT, pyNum, exceptBindOk]
    by_cases hlt : b.2 < y.2
    · rw [if_pos (by exact decide_eq_true hlt)]
      simp only [selMaxGo, if_pos hlt]
      exact ih y
    · rw [if_neg (by simp [hlt])]
      simp only [selMaxGo, if_neg hlt]
      exact ih b

theorem pyMaxByScore_enc (c : String × ℚ) (cs : List (String × ℚ)) :
    pyMaxByScore (encCand c :: cs.map encCand) = .ok (encCand (selMaxGo c cs)) := by
  simp only [pyMaxByScore, scoreKey_enc, exceptBindOk]
  exact pyMaxGo_enc c cs

theorem label_mapping_eq_spec (s : String) :
    (label_mapping.lookup s).getD "Neutral" = specLabelTable s := by
  by_cases h0 : s = "LABEL_0"
  · subst h0; rfl
  by_cases h1 : s = "LABEL_1"
  · subst h1; rfl
  by_cases h2 : s = "LABEL_2"
  · subst h2; rfl
  have hl : label_mapping.lookup s = none := by
    have e0 : (s == "LABEL_0") = false := beq_eq_false_iff_ne.mpr h0
    have e1 : (s == "LABEL_1") = false := beq_eq_false_iff_ne.mpr h1
    have e2 : (s == "LABEL_2") = false := beq_eq_false_iff_ne.mpr h2
    simp [label_mapping, List.lookup, e0, e1, e2]
  rw [hl]
  unfold specLabelTable
  split
  · exact absurd rfl h0
  · exact absurd rfl h1
  · exact absurd rfl h2
  · rfl

theorem selMaxGo_mem (b : String × ℚ) (ys : List (String × ℚ)) :
    selMaxGo b ys ∈ b :: ys := by
  induction ys generalizing b with
  | nil => exact List.mem_singleton.mpr rfl
  | cons y ys2 ih =>
    rw [selMaxGo]
    split
    · rcases List.mem_cons.mp (ih y) with h | h
      · rw [h]
        exact List.mem_cons.mpr (Or.inr (List.mem_cons_self y ys2))
      · exact List.mem_cons.mpr (Or.inr (List.mem_cons.mpr (Or.inr h)))
    · rcases List.mem_cons.mp (ih b) with h | h
      · rw [h]
        exact List.mem_cons_self b (y :: ys2)
      · exact List.mem_cons.mpr (Or.inr (List.mem_cons.mpr (Or.inr h)))

theorem selMaxGo_le (b : String × ℚ) (ys : List (String × ℚ)) :
    ∀ y ∈ b :: ys, y.2 ≤ (selMaxGo b ys).2 := by
  induction ys generalizing b with
  | nil =>
    intro y hy
    rw [List.mem_singleton.mp hy]
    exact le_refl _
  | cons y2 ys2 ih =>
    intro y hy
    rw [selMaxGo]
    split
    · rename_i hlt
      rcases List.mem_cons.mp hy with h | h
      · rw [h]
        exact le_trans (le_of_lt hlt) (ih y2 y2 (List.mem_cons_self y2 ys2))
      · exact ih y2 y h
    · rename_i hlt
      rcases List.mem_cons.mp hy with h | h
      · rw [h]
        exact ih b b (List.mem_cons_self b ys2)
      · rcases List.mem_cons.mp h with h3 | h3
        · rw [h3]
          exact le_trans (le_of_not_lt hlt) (ih b b (List.mem_cons_self b ys2))
        · exact ih b y (List.mem_cons.mpr (Or.inr h3))

/-- C8: on a well-shaped sentiment reply — a nonempty nested list of
`{label, score}` candidates — the stage selects the (first) candidate with
maximum score (`selMaxGo` is a member of the candidate list and its score
bounds every candidate's score) and maps its raw label through the fixed
table LABEL_0/LABEL_1/LABEL_2 → Negative/Neutral/Positive with unknown raw
labels defaulting to Neutral; in particular the reply
`[[{LABEL_2, 0.91}, {LABEL_0, 0.05}]]` yields Positive/0.91. -/
theorem sentimentMaxSelection (c : String × ℚ) (cs : List (String × ℚ))
    (rest : List JValue) :
    sentParse (.arr (.arr (encCand c :: cs.map encCand) :: rest)) =
      .ok ⟨.str (specLabelTable (selMaxGo c cs).1), .num (selMaxGo c cs).2, none⟩ ∧
    selMaxGo c cs ∈ c :: cs ∧
    (∀ y ∈ c :: cs, y.2 ≤ (selMaxGo c cs).2) ∧
    sentParse (.arr [.arr [encCand ("LABEL_2", mkRat 91 100),
        encCand ("LABEL_0", mkRat 5 100)]]) =
      .ok ⟨.str "Positive", .num (mkRat 91 100), none⟩ := by
  refine ⟨?_, selMaxGo_mem c cs, selMaxGo_le c cs, by decide⟩
  simp only [sentParse]
  rw [pyMaxByScore_enc]
  simp only [exceptBindOk, pyGetD_enc_label, pyGetD_enc_score, sentLabelFor,
    exceptPureOk, label_mapping_eq_spec]

theorem sentimentMaxSelectionWitness :
    ("LABEL_0", mkRat 5 100) ∈
      [(("LABEL_2" : String), mkRat 91 100), ("LABEL_0", mkRat 5 100)] ∧
    (("LABEL_0", mkRat 5 100) : String × ℚ).2 ≤
      (selMaxGo ("LABEL_2", mkRat 91 100) [("LABEL_0", mkRat 5 100)]).2 :=
  ⟨by decide,
    (sentimentMaxSelection ("LABEL_2", mkRat 91 100)
        [("LABEL_0", mkRat 5 100)] []).2.2.1
      ("LABEL_0", mkRat 5 100) (by decide)⟩
